import Mathlib

/-!
Verification development for the RooseveltAdvisors.github.io repository.

This file shallowly embeds the data-shaping code of the repository:

* `src/plugins/recent-blog-posts-plugin.ts` — the Docusaurus plugin whose
  `allContentLoaded` extracts the first five blog posts from the blog
  plugin's content and republishes them through `setGlobalData`;
* the plugin-data variant of `useRecentBlogPosts`
  (`src/data/` hook reading `usePluginData("recent-blog-posts-plugin")`);
* the global-data variant of `useRecentBlogPosts` in
  `src/components/BlogPostsSection/useBlogPosts.ts`, together with its
  hardcoded `getFallbackPosts`;
* the `plugins` list of `docusaurus.config.ts` and the front-matter keys of
  the blog content files.

Modelling conventions for the JavaScript semantics:

* JS values reaching the plugin are typed `any`; we model exactly the shapes
  the code inspects.  Missing / nullish fields are `Option.none`.
* `x || d` on strings is `jsOrStr`: the default is taken when the field is
  absent or the empty string (the only falsy strings).
* `post.metadata?.tags?.map(...)` throws a `TypeError` when `tags` is
  present (non-nullish) but not an array; this is the only statement inside
  the plugin's `try` block that can throw on plain data, and is modelled by
  the `TagsVal.notArray` constructor and an `Except Unit` result.
* Numbers are modelled as `ℚ`; `Math.round` is `⌊q + 1/2⌋`, which agrees
  with JS rounding (half-up, toward +∞).
* Date strings are modelled in the repository's `YYYY-MM-DD` form.
  `new Date(s).getTime()` comparisons are represented by the
  order-isomorphic integer key `y*10000 + m*100 + d` (`dateKey`); the JS
  sort comparator only inspects the sign of differences, so any
  order-isomorphic key is a faithful embedding for sorting.  Unparsable
  dates (JS `NaN`) are outside the modelled domain and map to the epoch
  key 0, as does the `|| 0` default.
* `Array.prototype.sort` is stable (ES2019); it is modelled by the stable
  `List.mergeSort`.
* A call of `setGlobalData` is recorded in a list, so "calls setGlobalData
  exactly once" is a statement about the length of that list.
-/

/-- JS `x || d` for an optional string field: the default is used when the
field is nullish or the empty string (falsy). -/
def jsOrStr (x : Option String) (d : String) : String :=
  match x with
  | none => d
  | some s => if s = "" then d else s

/-- JS `Math.round` on a rational: round half toward positive infinity,
i.e. `⌊q + 1/2⌋`, written as a kernel-reducible floor division
(`mathRound_eq_floor` below proves the two agree). -/
def mathRound (q : ℚ) : ℤ :=
  Int.fdiv (2 * q.num + q.den) (2 * q.den)

/-- The month names table of `recent-blog-posts-plugin.ts`. -/
def MONTHS : List String :=
  ["January", "February", "March", "April", "May", "June", "July",
   "August", "September", "October", "November", "December"]

/-- JS `String.prototype.split` with a one-character separator, on the
character list: always returns at least one (possibly empty) piece. -/
def jsSplitAux (c : Char) : List Char → List (List Char)
  | [] => [[]]
  | x :: xs =>
    match jsSplitAux c xs with
    | [] => [[]]
    | h :: t => if x = c then [] :: h :: t else (x :: h) :: t

/-- JS `s.split(c)` for a one-character separator `c`. -/
def jsSplit (c : Char) (s : String) : List String :=
  (jsSplitAux c s.data).map String.mk

/-- The numeric value of a list of decimal digit characters. -/
def digitsVal (l : List Char) : Nat :=
  l.foldl (fun n c => 10 * n + (c.toNat - 48)) 0

/-- Decimal rendering of a natural number (most significant digit first);
the first argument is recursion fuel, always at least the digit count. -/
def natToStrAux : Nat → Nat → List Char
  | 0, _ => []
  | fuel + 1, n =>
    if n < 10 then [Nat.digitChar n]
    else natToStrAux fuel (n / 10) ++ [Nat.digitChar (n % 10)]

/-- Decimal rendering of a natural number, as JS renders an integer. -/
def natToStr (n : Nat) : String :=
  String.mk (natToStrAux (n + 1) n)

/-- Parse a `YYYY-MM-DD` date string into its numeric components.
Strings not of that shape (the repository's dates all are) parse to `none`,
standing for JS `Invalid Date`. -/
def parseIsoDate (s : String) : Option (Nat × Nat × Nat) :=
  match jsSplitAux '-' s.data with
  | [y, m, d] =>
    if y.length = 4 && m.length = 2 && d.length = 2
        && y.all Char.isDigit && m.all Char.isDigit && d.all Char.isDigit
        && 1 ≤ digitsVal m && digitsVal m ≤ 12
        && 1 ≤ digitsVal d && digitsVal d ≤ 31 then
      some (digitsVal y, digitsVal m, digitsVal d)
    else
      none
  | _ => none

/-- `formatDate` of `recent-blog-posts-plugin.ts`:
`` `${MONTHS[d.getUTCMonth()]} ${d.getUTCDate()}, ${d.getUTCFullYear()}` ``.
On an invalid date every component is `NaN` and the month lookup is
`undefined`, producing the literal string below. -/
def formatDate (s : String) : String :=
  match parseIsoDate s with
  | some (y, m, d) =>
      (MONTHS.getD (m - 1) "undefined") ++ " " ++ natToStr d ++ ", " ++ natToStr y
  | none => "undefined NaN, NaN"

/-- The order-isomorphic sort key of `new Date(s).getTime()` for the
modelled `YYYY-MM-DD` domain; the epoch (and everything outside the
modelled domain) is 0. -/
def dateKey (s : String) : Int :=
  match parseIsoDate s with
  | some (y, m, d) => (y : Int) * 10000 + (m : Int) * 100 + (d : Int)
  | none => 0

/-- An element of a post's `metadata.tags` array: a plain string, an object
(whose `label` may be missing), or a nullish entry. -/
inductive JSTag where
  | str (s : String)
  | obj (label : Option String)
  | nul
  deriving DecidableEq, Repr

/-- The value of a post's `metadata.tags` field when it is present
(non-nullish): either a genuine array or some other value, on which
`tags?.map(...)` throws a `TypeError`. -/
inductive TagsVal where
  | arr (ts : List JSTag)
  | notArray
  deriving DecidableEq, Repr

/-- The part of a post's `metadata.frontMatter` the plugin reads. -/
structure PostFrontMatter where
  image : Option String
  deriving DecidableEq, Repr

/-- The part of a blog post's `metadata` the plugin reads. -/
structure Metadata where
  title : Option String
  permalink : Option String
  date : Option String
  formattedDate : Option String
  frontMatter : Option PostFrontMatter
  description : Option String
  tags : Option TagsVal
  readingTime : Option ℚ
  unlisted : Option Bool
  deriving DecidableEq, Repr

/-- A blog post as the plugin sees it: `metadata` may be absent. -/
structure Post where
  metadata : Option Metadata
  deriving DecidableEq, Repr

/-- The `BlogListItem` summary shape the plugin publishes.  The TypeScript
interface marks most fields optional; the plugin's constructor always fills
them, so producing `some` everywhere below. -/
structure BlogListItem where
  title : String
  permalink : String
  date : String
  formattedDate : Option String
  image : Option String
  description : Option String
  tags : Option (List String)
  readingTime : Option ℚ
  unlisted : Option Bool
  deriving DecidableEq, Repr

/-- `(t: any) => typeof t === "string" ? t : t?.label || ""`. -/
def tagToStr (t : JSTag) : String :=
  match t with
  | .str s => s
  | .obj label => jsOrStr label ""
  | .nul => ""

/-- `post.metadata?.tags?.map(...).filter(Boolean) || []` as an
exception-throwing computation: a present non-array `tags` throws. -/
def pluginTags (tags : Option TagsVal) : Except Unit (List String) :=
  match tags with
  | none => Except.ok []
  | some (.arr ts) => Except.ok ((ts.map tagToStr).filter (fun s => s ≠ ""))
  | some .notArray => Except.error ()

/-- The per-post body of the plugin's `.map`: builds one `BlogListItem`;
throws exactly when `pluginTags` does (the tags expression is the only
throwing subexpression, so evaluation order does not matter). -/
def pluginMapPost (post : Post) : Except Unit BlogListItem :=
  match pluginTags (post.metadata.bind Metadata.tags) with
  | Except.error e => Except.error e
  | Except.ok tags =>
    Except.ok
      { title := jsOrStr (post.metadata.bind Metadata.title) ""
        permalink := jsOrStr (post.metadata.bind Metadata.permalink) ""
        date := jsOrStr (post.metadata.bind Metadata.date) ""
        formattedDate :=
          some (jsOrStr (post.metadata.bind Metadata.formattedDate)
            (formatDate (jsOrStr (post.metadata.bind Metadata.date) "")))
        image := some (jsOrStr
          ((post.metadata.bind Metadata.frontMatter).bind PostFrontMatter.image) "")
        description := some (jsOrStr (post.metadata.bind Metadata.description) "")
        tags := some tags
        readingTime :=
          some ((mathRound ((post.metadata.bind Metadata.readingTime).getD 0) : ℤ) : ℚ)
        unlisted := some ((post.metadata.bind Metadata.unlisted).getD false) }

/-- The `blogPosts` field of the blog plugin's content: a genuine array of
posts, or any other present value (on which `Array.isArray` is false). -/
inductive BlogPostsField where
  | arr (ps : List Post)
  | notArray
  deriving Repr

/-- The blog plugin's content object; `blogPosts` may be absent. -/
structure BlogContent where
  blogPosts : Option BlogPostsField
  deriving Repr

/-- `allContent["docusaurus-plugin-content-blog"]?.["default"]`: absent when
either lookup misses. -/
structure AllContent where
  blogDefault : Option BlogContent
  deriving Repr

/-- The object passed to `setGlobalData`. -/
structure GlobalData where
  recentPosts : List BlogListItem
  deriving DecidableEq, Repr

/-- The body of the plugin's `try` block: either the list of
`setGlobalData` calls it makes, or the exception it throws. -/
def tryBody (ac : AllContent) : Except Unit (List GlobalData) :=
  match ac.blogDefault with
  | none => Except.ok [{ recentPosts := [] }]
  | some bc =>
    match bc.blogPosts with
    | none => Except.ok [{ recentPosts := [] }]
    | some .notArray => Except.ok [{ recentPosts := [] }]
    | some (.arr ps) =>
      match (ps.take 5).mapM pluginMapPost with
      | Except.ok items => Except.ok [{ recentPosts := items }]
      | Except.error e => Except.error e

/-- The plugin's `allContentLoaded` as the list of `setGlobalData` calls it
performs: the `try` body's calls, or the `catch` handler's single call
`setGlobalData({ recentPosts: [] })`. -/
def allContentLoaded (ac : AllContent) : List GlobalData :=
  match tryBody ac with
  | Except.ok calls => calls
  | Except.error _ => [{ recentPosts := [] }]

/-- The `FeaturedBlogPost` shape both `useRecentBlogPosts` hooks return.
`readingTime` is always supplied by both hooks (the `|| 5` default), so it
is total here; `imageUrl` can genuinely be `undefined`. -/
structure FeaturedBlogPost where
  id : String
  title : String
  description : String
  date : String
  formattedDate : String
  permalink : String
  imageUrl : Option String
  tags : List String
  readingTime : ℚ
  deriving DecidableEq, Repr

/-- The plugin's published data as the hooks read it back
(`usePluginData("recent-blog-posts-plugin")`). -/
structure RecentPostsPluginData where
  recentPosts : List BlogListItem
  deriving Repr

namespace HookPluginData

/-- `post.permalink.split("/").filter(Boolean).pop() || ""`. -/
def slugOf (permalink : String) : String :=
  (((jsSplit '/' permalink).filter (fun s => s ≠ "")).getLast?).getD ""

/-- The per-item body of the plugin-data hook's `.map`. -/
def transform (post : BlogListItem) : FeaturedBlogPost :=
  { id := slugOf post.permalink
    title := post.title
    description := jsOrStr post.description ""
    date := post.date
    formattedDate := jsOrStr post.formattedDate post.date
    permalink := post.permalink
    imageUrl :=
      match post.image with
      | none => none
      | some s => if s = "" then none else some s
    tags := post.tags.getD []
    readingTime :=
      match post.readingTime with
      | none => 5
      | some q => if q = 0 then 5 else q }

/-- The plugin-data variant of `useRecentBlogPosts`.  Its input is the
result of `usePluginData`: `Except.error` stands for that call throwing,
`none` for absent data (`!pluginData?.recentPosts`). -/
def useRecentBlogPosts (pluginData : Except Unit (Option RecentPostsPluginData))
    (count : Nat) : List FeaturedBlogPost :=
  match pluginData with
  | Except.error _ => []
  | Except.ok none => []
  | Except.ok (some pd) =>
    if pd.recentPosts.length = 0 then []
    else ((pd.recentPosts.take count).map transform)

end HookPluginData

namespace HookGlobalData

/-- The `frontMatter` shape the global-data hook reads. -/
structure HookFrontMatter where
  image : Option String
  deriving DecidableEq, Repr

/-- The `metadata` shape the global-data hook reads. -/
structure HookMetadata where
  title : Option String
  description : Option String
  date : Option String
  formattedDate : Option String
  permalink : Option String
  image : Option String
  frontMatter : Option HookFrontMatter
  source : Option String
  tags : Option (List String)
  readingTime : Option ℚ
  deriving DecidableEq, Repr

/-- A `BlogPost` of the global-data hook's `blogPosts` array. -/
structure BlogPost where
  id : Option String
  metadata : Option HookMetadata
  deriving DecidableEq, Repr

/-- `new Date(a.metadata?.date || 0).getTime()` as a sort key: absent or
empty dates give the epoch key 0, present dates their `dateKey`. -/
def sortKey (p : BlogPost) : Int :=
  match p.metadata.bind HookMetadata.date with
  | none => 0
  | some s => if s = "" then 0 else dateKey s

/-- The comparator `(a, b) => dateB.getTime() - dateA.getTime()` as the
"in order" test of a stable sort: `a` may precede `b` when the comparator
is `≤ 0`, i.e. `b`'s time is at most `a`'s. -/
def descDate (a b : BlogPost) : Bool :=
  sortKey b ≤ sortKey a

/-- First match of the regex `/blog\/([^\/]+)\//` on a character list:
at each position try to read `blog/`, then a non-empty run of non-`/`
characters followed by `/`; the leftmost success's captured run wins. -/
def blogFolderAux : List Char → Option (List Char)
  | [] => none
  | c :: rest =>
    let here : Option (List Char) :=
      match c :: rest with
      | 'b' :: 'l' :: 'o' :: 'g' :: '/' :: after =>
        let seg := after.takeWhile (fun ch => ch ≠ '/')
        if seg ≠ [] && (after.drop seg.length).head? = some '/' then
          some seg
        else
          none
      | _ => none
    match here with
    | some seg => some seg
    | none => blogFolderAux rest

/-- `sourcePath.match(/blog\/([^\/]+)\//)`'s captured group. -/
def blogFolderMatch (s : String) : Option String :=
  (blogFolderAux s.data).map List.asString

/-- `permalink.endsWith('/') ? permalink.slice(0, -1) : permalink`. -/
def blogPathOf (permalink : String) : String :=
  if permalink.data.getLast? = some '/' then String.mk permalink.data.dropLast
  else permalink

/-- The image-URL resolution of the global-data hook's `.map` body. -/
def imageUrlOf (md : HookMetadata) : String :=
  let img := jsOrStr (md.frontMatter.bind HookFrontMatter.image) (jsOrStr md.image "")
  if img ≠ "" && (match img.data with | '.' :: '/' :: _ => true | _ => false) then
    match blogFolderMatch (jsOrStr md.source "") with
    | some folder => "/blog/" ++ folder ++ String.mk img.data.tail
    | none => blogPathOf (jsOrStr md.permalink "") ++ String.mk img.data.tail
  else if img = "" then
    match blogFolderMatch (jsOrStr md.source "") with
    | some folder => "/blog/" ++ folder ++ "/img/hero-banner.png"
    | none => blogPathOf (jsOrStr md.permalink "") ++ "/img/hero-banner.png"
  else img

/-- `useBlogPosts.ts`'s own `formatDate`: `toLocaleDateString('en-US',
{year: 'numeric', month: 'long', day: 'numeric'})`, which renders a valid
date as `Month D, YYYY` and an invalid one as the string `Invalid Date`. -/
def hookFormatDate (s : String) : String :=
  match parseIsoDate s with
  | some (y, m, d) =>
      (MONTHS.getD (m - 1) "undefined") ++ " " ++ toString d ++ ", " ++ toString y
  | none => "Invalid Date"

/-- The per-post body of the global-data hook's `.map`. -/
def transform (post : BlogPost) : FeaturedBlogPost :=
  let md := (post.metadata).getD
    { title := none, description := none, date := none, formattedDate := none,
      permalink := none, image := none, frontMatter := none, source := none,
      tags := none, readingTime := none }
  { id := jsOrStr post.id (jsOrStr (md.permalink.map (fun p => ((jsSplit '/' p).getLast?).getD "")) "")
    title := jsOrStr md.title ""
    description := jsOrStr md.description ""
    date := jsOrStr md.date ""
    formattedDate := jsOrStr md.formattedDate (hookFormatDate (jsOrStr md.date ""))
    permalink := jsOrStr md.permalink ""
    imageUrl := some (imageUrlOf md)
    tags := md.tags.getD []
    readingTime :=
      match md.readingTime with
      | none => 5
      | some q => if q = 0 then 5 else q }

end HookGlobalData

namespace HookGlobalData

/-- The hardcoded fallback list of `getFallbackPosts` in
`useBlogPosts.ts`, transcribed verbatim. -/
def getFallbackPosts : List FeaturedBlogPost :=
  [ { id := "building-aoa-agent-lovable-n8n"
      title := "Building AoA Agent with Lovable and n8n"
      description := "Learn how to build an AoA (Agent of Agents) using Lovable for the UI and n8n for workflow automation"
      date := "2025-05-31"
      formattedDate := "May 31, 2025"
      permalink := "/blog/building-aoa-agent-lovable-n8n"
      imageUrl := some "/blog/2025-05-31-building-aoa-agent-lovable-n8n/img/hero-banner.png"
      tags := ["no-code", "lovable", "n8n"]
      readingTime := 5 },
    { id := "fastapi-mcp-client"
      title := "FastAPI MCP Client"
      description := "Building a FastAPI client for Model Context Protocol (MCP)"
      date := "2025-04-14"
      formattedDate := "April 14, 2025"
      permalink := "/blog/fastapi-mcp-client"
      imageUrl := some "/blog/2025-04-14-fastapi-mcp-client/img/hero-banner.png"
      tags := ["fastapi", "mcp", "python"]
      readingTime := 8 },
    { id := "modular-ai-agents"
      title := "Modular AI Agents"
      description := "Design patterns and best practices for building modular AI agent systems"
      date := "2025-04-05"
      formattedDate := "April 5, 2025"
      permalink := "/blog/architecting-modular-ai-agents"
      imageUrl := some "/blog/2025-04-05-modular-ai-agents/img/hero-banner.png"
      tags := ["ai", "agents", "architecture"]
      readingTime := 10 } ]

/-- The global-data blog content as the hook reads it:
`globalData?.['docusaurus-plugin-content-blog']?.['default']` with its
`blogPosts` array; `none` stands for any of those lookups missing. -/
structure BlogPluginData where
  blogPosts : Option (List BlogPost)
  deriving Repr

/-- The global-data variant of `useRecentBlogPosts` in `useBlogPosts.ts`.
Its input is the result of `useGlobalData()`: `Except.error` stands for
that call throwing, `none` for absent plugin data.  On success it spreads,
stably sorts by descending date, slices `count` and transforms. -/
def useRecentBlogPosts (globalData : Except Unit (Option BlogPluginData))
    (count : Nat) : List FeaturedBlogPost :=
  match globalData with
  | Except.error _ => getFallbackPosts
  | Except.ok none => getFallbackPosts
  | Except.ok (some bpd) =>
    match bpd.blogPosts with
    | none => getFallbackPosts
    | some posts =>
      if posts.length = 0 then getFallbackPosts
      else (((posts.mergeSort descDate).take count).map transform)

end HookGlobalData

/-- One entry of the `plugins` list of `docusaurus.config.ts`: either a
`[name, options]` tuple or a bare module path/name string. -/
inductive ConfigPluginEntry where
  | withOptions (name : String)
  | bare (name : String)
  deriving DecidableEq, Repr

/-- The `plugins` list of `docusaurus.config.ts`, transcribed: the
ideal-image plugin with its options, then the custom recent-blog-posts
plugin by path. -/
def configPlugins : List ConfigPluginEntry :=
  [ ConfigPluginEntry.withOptions "@docusaurus/plugin-ideal-image",
    ConfigPluginEntry.bare "./src/plugins/recent-blog-posts-plugin.ts" ]

/-- Does a config plugins entry refer to the custom recent-blog-posts
plugin? -/
def isRecentBlogPostsPluginEntry (e : ConfigPluginEntry) : Bool :=
  match e with
  | ConfigPluginEntry.withOptions n => n = "./src/plugins/recent-blog-posts-plugin.ts"
  | ConfigPluginEntry.bare n => n = "./src/plugins/recent-blog-posts-plugin.ts"

/-- The front matter of one content file: its path and the keys present. -/
structure FrontMatterDoc where
  path : String
  keys : List String
  deriving DecidableEq, Repr

/-- The front-matter key sets of every blog content file in the
repository (the four posts under `blog/` and the three further posts whose
directory names are unknown), transcribed from the files. -/
def blogFrontMatters : List FrontMatterDoc :=
  [ { path := "blog/2024-11-15-handling-skewed-data-in-apache-spark-performance-optimization/index.mdx"
      keys := ["slug", "title", "authors", "tags", "image"] },
    { path := "blog/2025-03-13-gpu-rag-processing/index.mdx"
      keys := ["slug", "title", "authors", "tags", "image"] },
    { path := "blog/2025-03-20-semantic-kernel-ai-agent/index.md"
      keys := ["slug", "title", "authors", "tags", "image"] },
    { path := "blog/2025-04-02-azure-ai-evaluation-apim/index.mdx"
      keys := ["slug", "title", "authors", "tags", "image"] },
    { path := "blog/(2025-04-05-modular-ai-agents)/index"
      keys := ["slug", "title", "authors", "tags", "image"] },
    { path := "blog/(2025-03-20-semantic-kernel-research-agent)/index"
      keys := ["slug", "title", "authors", "tags", "image"] },
    { path := "blog/(defining-pii-masking-policies-with-aws-bedrock-guardrails)/index"
      keys := ["title", "authors", "date", "tags", "image"] } ]

/-- The last non-empty `/`-separated segment of a permalink, and the empty
string when there is none.  Modelled from the spec claim's words (via a
reverse search), to be compared with the code's
`split("/").filter(Boolean).pop() || ""`. -/
def lastNonEmptySegment (permalink : String) : String :=
  (((jsSplit '/' permalink).reverse).find? (fun s => s ≠ "")).getD ""

/-- The publication-time key of an input post, as the plugin copies its
date: `dateKey` of `post.metadata?.date || ""`. -/
def postDateKey (p : Post) : Int :=
  dateKey (jsOrStr (p.metadata.bind Metadata.date) "")

/-- The publication-time key of a published summary item. -/
def itemDateKey (i : BlogListItem) : Int :=
  dateKey i.date

/-- The publication-time key of a rendered featured post. -/
def featuredDateKey (f : FeaturedBlogPost) : Int :=
  dateKey f.date

/-- A metadata object with every field absent. -/
def emptyMetadata : Metadata :=
  { title := none, permalink := none, date := none, formattedDate := none,
    frontMatter := none, description := none, tags := none,
    readingTime := none, unlisted := none }

/-- A post whose `tags` field is present but not an array: mapping it makes
`tags?.map(...)` throw. -/
def throwingTagsPost : Post :=
  { metadata := some { emptyMetadata with tags := some TagsVal.notArray } }

/-- The summary item the plugin builds for a post with no metadata. -/
def emptyMetadataItem : BlogListItem :=
  { title := "", permalink := "", date := "", formattedDate := some "undefined NaN, NaN",
    image := some "", description := some "", tags := some [],
    readingTime := some 0, unlisted := some false }

/-- A post dated 2020-01-15, with no other metadata. -/
def post2020 : Post :=
  { metadata := some { emptyMetadata with date := some "2020-01-15" } }

/-- A post dated 2024-06-01, with no other metadata. -/
def post2024 : Post :=
  { metadata := some { emptyMetadata with date := some "2024-06-01" } }

/-- Blog content whose `blogPosts` array lists the older post first: input
order ascending by publication time. -/
def ascendingAllContent : AllContent :=
  { blogDefault := some { blogPosts := some (BlogPostsField.arr [post2020, post2024]) } }

/-- A hook-side metadata object with every field absent. -/
def emptyHookMetadata : HookGlobalData.HookMetadata :=
  { title := none, description := none, date := none, formattedDate := none,
    permalink := none, image := none, frontMatter := none, source := none,
    tags := none, readingTime := none }

/-- A hook-side blog post dated 2020-01-15. -/
def hookPost2020 : HookGlobalData.BlogPost :=
  { id := none, metadata := some { emptyHookMetadata with date := some "2020-01-15" } }

/-- A hook-side blog post dated 2024-06-01. -/
def hookPost2024 : HookGlobalData.BlogPost :=
  { id := none, metadata := some { emptyHookMetadata with date := some "2024-06-01" } }

deriving instance DecidableEq for Except

/-- A demonstration metadata object: only `title` is present. -/
def c5DemoMetadata : Metadata :=
  { emptyMetadata with title := some "Hello" }

/-- The summary item the plugin builds for `c5DemoMetadata`. -/
def c5DemoItem : BlogListItem :=
  { title := "Hello", permalink := "", date := "",
    formattedDate := some "undefined NaN, NaN", image := some "",
    description := some "", tags := some [], readingTime := some 0,
    unlisted := some false }

/-- A demonstration post with a mixed tags array: a non-empty string, an
empty string, an object with a label, an object without, and a nullish
entry. -/
def c8DemoPost : Post :=
  { metadata := some { emptyMetadata with
      tags := some (TagsVal.arr [JSTag.str "a", JSTag.str "", JSTag.obj (some "x"),
        JSTag.obj none, JSTag.nul]) } }

/-- The summary item the plugin builds for `c8DemoPost`. -/
def c8DemoItem : BlogListItem :=
  { emptyMetadataItem with tags := some ["a", "x"] }

/-- The summary item the plugin builds for `post2020`. -/
def item2020 : BlogListItem :=
  { emptyMetadataItem with date := "2020-01-15", formattedDate := some "January 15, 2020" }

/-- The summary item the plugin builds for `post2024`. -/
def item2024 : BlogListItem :=
  { emptyMetadataItem with date := "2024-06-01", formattedDate := some "June 1, 2024" }

/-- `mathRound` is the promised `⌊q + 1/2⌋`: JS `Math.round`. -/
lemma mathRound_eq_floor (q : ℚ) : mathRound q = ⌊(q + 1/2 : ℚ)⌋ := by
  unfold mathRound
  rw [Int.fdiv_eq_ediv _ (by positivity)]
  have hq : (q + 1/2 : ℚ) = ((2 * q.num + (q.den : ℤ) : ℤ) : ℚ) / ((2 * q.den : ℕ) : ℚ) := by
    have hd : (q.den : ℚ) ≠ 0 := by positivity
    conv_lhs => rw [← Rat.num_div_den q]
    push_cast
    field_simp
    ring
  rw [hq, Rat.floor_intCast_div_natCast]
  push_cast
  rfl

/-- A successful `Except`-valued `mapM` produces as many results as inputs. -/
lemma mapM_ok_length {α β : Type} (f : α → Except Unit β) :
    ∀ (l : List α) (res : List β), l.mapM f = Except.ok res → res.length = l.length := by
  intro l
  induction l with
  | nil =>
    intro res h
    simp only [List.mapM_nil] at h
    cases h
    rfl
  | cons a t ih =>
    intro res h
    rw [List.mapM_cons] at h
    cases hfa : f a with
    | error e => rw [hfa] at h; cases h
    | ok b =>
      rw [hfa] at h
      cases hft : t.mapM f with
      | error e =>
        rw [hft] at h
        cases h
      | ok bs =>
        rw [hft] at h
        have h' : Except.ok (b :: bs) = (Except.ok res : Except Unit (List β)) := h
        cases h'
        simp [ih bs hft]

/-- A successful `Except`-valued `mapM` maps each input in order. -/
lemma mapM_ok_map {α β γ : Type} (f : α → Except Unit β) (g : β → γ) (g' : α → γ)
    (hfg : ∀ a b, f a = Except.ok b → g b = g' a) :
    ∀ (l : List α) (res : List β), l.mapM f = Except.ok res → res.map g = l.map g' := by
  intro l
  induction l with
  | nil =>
    intro res h
    simp only [List.mapM_nil] at h
    cases h
    rfl
  | cons a t ih =>
    intro res h
    rw [List.mapM_cons] at h
    cases hfa : f a with
    | error e => rw [hfa] at h; cases h
    | ok b =>
      rw [hfa] at h
      cases hft : t.mapM f with
      | error e =>
        rw [hft] at h
        cases h
      | ok bs =>
        rw [hft] at h
        have h' : Except.ok (b :: bs) = (Except.ok res : Except Unit (List β)) := h
        cases h'
        simp [ih bs hft, hfg a b hfa]

/-- C2: on every input — the blog content absent, the `blogPosts` field
missing or not an array, or the extraction throwing — `allContentLoaded`
completes (it is total: the `catch` absorbs the only possible exception),
calls `setGlobalData` exactly once, and in each of those failure cases the
single call sets `recentPosts` to the empty list. -/
theorem c2_allContentLoaded_error_handling (ac : AllContent) :
    (allContentLoaded ac).length = 1 ∧
    (ac.blogDefault = none → allContentLoaded ac = [{ recentPosts := [] }]) ∧
    (∀ bc, ac.blogDefault = some bc → bc.blogPosts = none →
      allContentLoaded ac = [{ recentPosts := [] }]) ∧
    (∀ bc, ac.blogDefault = some bc → bc.blogPosts = some BlogPostsField.notArray →
      allContentLoaded ac = [{ recentPosts := [] }]) ∧
    (tryBody ac = Except.error () → allContentLoaded ac = [{ recentPosts := [] }]) := by
  refine ⟨?_, ?_, ?_, ?_, ?_⟩
  · unfold allContentLoaded tryBody
    rcases ac with ⟨_ | bc⟩
    · rfl
    · rcases bc with ⟨_ | bps⟩
      · rfl
      · rcases bps with ps | _
        · simp only
          cases h : (ps.take 5).mapM pluginMapPost <;> rfl
        · rfl
  · intro h
    unfold allContentLoaded tryBody
    rw [h]
  · intro bc hbc hbp
    simp [allContentLoaded, tryBody, hbc, hbp]
  · intro bc hbc hbp
    simp [allContentLoaded, tryBody, hbc, hbp]
  · intro h
    unfold allContentLoaded
    rw [h]

/-- Witness for C2 at the concrete input with no blog content. -/
theorem c2_witness :
    (allContentLoaded { blogDefault := none }).length = 1 ∧
    allContentLoaded { blogDefault := none } = [{ recentPosts := [] }] :=
  ⟨(c2_allContentLoaded_error_handling { blogDefault := none }).1,
   (c2_allContentLoaded_error_handling { blogDefault := none }).2.1 rfl⟩

/-- C6 counterexample: the config's `plugins` list does not contain two
recent-blog-posts entries — it contains exactly one (the other entry is
`@docusaurus/plugin-ideal-image`). -/
theorem c6_counterexample :
    ¬ ((configPlugins.filter isRecentBlogPostsPluginEntry).length = 2) := by
  decide

/-- C6 (amended): the config's `plugins` list has exactly two entries, and
exactly one of them is the custom recent-blog-posts plugin. -/
theorem c6_amended_plugins_list :
    configPlugins.length = 2 ∧
    (configPlugins.filter isRecentBlogPostsPluginEntry).length = 1 := by
  decide

/-- C7 counterexample: not every blog content file's front matter has the
keys `title`, `date`, `tags` and `image` — the Spark post (like five of the
other six) has no `date` key. -/
theorem c7_counterexample :
    ¬ (blogFrontMatters.all
        (fun fm => fm.keys.contains "title" && fm.keys.contains "date"
          && fm.keys.contains "tags" && fm.keys.contains "image") = true) := by
  decide

/-- C7 (amended): every blog content file's front matter has the keys
`title`, `tags` and `image`; a `date` key appears in exactly one of the
seven files (the others carry the date in the directory name). -/
theorem c7_amended_front_matter :
    blogFrontMatters.all
        (fun fm => fm.keys.contains "title" && fm.keys.contains "tags"
          && fm.keys.contains "image") = true ∧
    (blogFrontMatters.filter (fun fm => fm.keys.contains "date")).length = 1 := by
  decide

/-- C1 counterexample: `blogPosts` is an array (one post whose present
`tags` field is not an array), yet there are no mapped images of its first
element — the map throws — and the plugin publishes the empty list instead
of the mapped first `min(5, length)` elements. -/
theorem c1_counterexample :
    (List.mapM pluginMapPost ([throwingTagsPost].take 5)).isOk = false ∧
    allContentLoaded
      { blogDefault := some { blogPosts := some (BlogPostsField.arr [throwingTagsPost]) } }
      = [{ recentPosts := [] }] := by
  decide

/-- C1 (amended): whenever `blogPosts` is an array and mapping its first
`min(5, length)` elements does not throw, the plugin sets global data whose
`recentPosts` is exactly those mapped images in input order, with
`min(5, length)` items; when the mapping throws, it sets the empty list. -/
theorem c1_amended_recent_posts (ps : List Post) :
    (∀ items, (ps.take 5).mapM pluginMapPost = Except.ok items →
      allContentLoaded { blogDefault := some { blogPosts := some (BlogPostsField.arr ps) } }
        = [{ recentPosts := items }] ∧
      items.length = min 5 ps.length) ∧
    ((ps.take 5).mapM pluginMapPost = Except.error () →
      allContentLoaded { blogDefault := some { blogPosts := some (BlogPostsField.arr ps) } }
        = [{ recentPosts := [] }]) := by
  have ht : tryBody { blogDefault := some { blogPosts := some (BlogPostsField.arr ps) } }
      = (match (ps.take 5).mapM pluginMapPost with
         | Except.ok items => Except.ok [{ recentPosts := items }]
         | Except.error e => Except.error e) := rfl
  constructor
  · intro items h
    constructor
    · unfold allContentLoaded
      rw [ht, h]
    · have hlen := mapM_ok_length pluginMapPost (ps.take 5) items h
      simp [hlen]
  · intro h
    unfold allContentLoaded
    rw [ht, h]

/-- Witness for C1 at a one-post array whose post has no metadata. -/
theorem c1_witness :
    allContentLoaded
      { blogDefault := some { blogPosts := some (BlogPostsField.arr [{ metadata := none }]) } }
      = [{ recentPosts := [emptyMetadataItem] }] ∧
    ([emptyMetadataItem] : List BlogListItem).length
      = min 5 ([({ metadata := none } : Post)] : List Post).length :=
  (c1_amended_recent_posts [{ metadata := none }]).1 [emptyMetadataItem] (by rfl)

/-- The last element of a filtered list is the last element satisfying the
filter, found by searching the reversal. -/
lemma getLast?_filter (p : String → Bool) (l : List String) :
    (l.filter p).getLast? = l.reverse.find? p := by
  rw [List.getLast?_eq_head?_reverse, ← List.filter_reverse]
  generalize l.reverse = r
  induction r with
  | nil => rfl
  | cons a t ih =>
    by_cases h : p a <;> simp [List.filter_cons, List.find?_cons, h, ih]

/-- C9: the id the plugin-data variant of `useRecentBlogPosts` computes for
a post is the last non-empty `/`-separated segment of its permalink, and
the empty string when there is no non-empty segment. -/
theorem c9_id_is_last_nonempty_segment (item : BlogListItem) :
    (HookPluginData.transform item).id = lastNonEmptySegment item.permalink := by
  show HookPluginData.slugOf item.permalink = lastNonEmptySegment item.permalink
  unfold HookPluginData.slugOf lastNonEmptySegment
  rw [getLast?_filter]

/-- C5: the summary item the plugin publishes for a post with metadata has
title, permalink and date copied from metadata (empty when missing), a
formattedDate, image and description defaulting to the empty string, tags
defaulting to the empty list, readingTime equal to the rounded metadata
readingTime (0 when missing), and unlisted defaulting to false. -/
theorem c5_item_fields (post : Post) (m : Metadata) (item : BlogListItem)
    (hm : post.metadata = some m) (hok : pluginMapPost post = Except.ok item) :
    (∀ t, m.title = some t → item.title = t) ∧
    (m.title = none → item.title = "") ∧
    (∀ p, m.permalink = some p → item.permalink = p) ∧
    (m.permalink = none → item.permalink = "") ∧
    (∀ d, m.date = some d → item.date = d) ∧
    (m.date = none → item.date = "") ∧
    (item.formattedDate).isSome = true ∧
    (∀ i, m.frontMatter.bind PostFrontMatter.image = some i → item.image = some i) ∧
    (m.frontMatter.bind PostFrontMatter.image = none → item.image = some "") ∧
    (m.description = none → item.description = some "") ∧
    (m.tags = none → item.tags = some []) ∧
    item.readingTime = some ((mathRound (m.readingTime.getD 0) : ℤ) : ℚ) ∧
    (m.readingTime = none → item.readingTime = some 0) ∧
    (m.unlisted = none → item.unlisted = some false) ∧
    (∀ b, m.unlisted = some b → item.unlisted = some b) := by
  unfold pluginMapPost at hok
  rw [hm] at hok
  simp only [Option.some_bind] at hok
  cases htags : pluginTags m.tags with
  | error e =>
    rw [htags] at hok
    cases hok
  | ok tags =>
    rw [htags] at hok
    simp only [Except.ok.injEq] at hok
    subst hok
    refine ⟨?_, ?_, ?_, ?_, ?_, ?_, ?_, ?_, ?_, ?_, ?_, ?_, ?_, ?_, ?_⟩
    · intro t ht
      by_cases h : t = "" <;> simp [jsOrStr, ht, h]
    · intro ht
      simp [jsOrStr, ht]
    · intro p hp
      by_cases h : p = "" <;> simp [jsOrStr, hp, h]
    · intro hp
      simp [jsOrStr, hp]
    · intro d hd
      by_cases h : d = "" <;> simp [jsOrStr, hd, h]
    · intro hd
      simp [jsOrStr, hd]
    · simp
    · intro i hi
      by_cases h : i = "" <;> simp [jsOrStr, hi, h]
    · intro hi
      simp [jsOrStr, hi]
    · intro hd
      simp [jsOrStr, hd]
    · intro ht
      rw [ht] at htags
      simp [pluginTags] at htags
      simp [htags]
    · rfl
    · intro hr
      have h0 : mathRound 0 = 0 := by decide
      simp [hr, h0]
    · intro hu
      simp [hu]
    · intro b hb
      simp [hb]

/-- Witness for C5 at a concrete post whose metadata sets only the title. -/
theorem c5_witness :
    c5DemoItem.title = "Hello" ∧ c5DemoItem.readingTime = some 0 := by
  obtain ⟨h1, _, _, _, _, _, _, _, _, _, _, _, h13, _, _⟩ :=
    c5_item_fields { metadata := some c5DemoMetadata } c5DemoMetadata c5DemoItem rfl (by decide)
  exact ⟨h1 "Hello" rfl, h13 rfl⟩

/-- C8: the tags the plugin publishes keep string tags, replace non-string
tags by their label (empty when absent), and drop falsy entries, so no
published tags list contains the empty string. -/
theorem c8_published_tags (post : Post) (item : BlogListItem)
    (hok : pluginMapPost post = Except.ok item) :
    (∀ s ∈ item.tags.getD [], s ≠ "") ∧
    (∀ ts, post.metadata.bind Metadata.tags = some (TagsVal.arr ts) →
      item.tags = some ((ts.map tagToStr).filter (fun s => s ≠ ""))) := by
  unfold pluginMapPost at hok
  cases htags : pluginTags (post.metadata.bind Metadata.tags) with
  | error e =>
    rw [htags] at hok
    cases hok
  | ok tags =>
    rw [htags] at hok
    simp only [Except.ok.injEq] at hok
    subst hok
    constructor
    · intro s hs
      simp only [Option.getD_some] at hs
      cases htv : post.metadata.bind Metadata.tags with
      | none =>
        rw [htv] at htags
        simp [pluginTags] at htags
        subst htags
        simp at hs
      | some tv =>
        cases tv with
        | notArray =>
          rw [htv] at htags
          simp [pluginTags] at htags
        | arr ts =>
          rw [htv] at htags
          simp only [pluginTags, Except.ok.injEq] at htags
          subst htags
          have hmem := List.of_mem_filter hs
          simpa using hmem
    · intro ts hts
      rw [hts] at htags
      simp only [pluginTags, Except.ok.injEq] at htags
      subst htags
      rfl

/-- Witness for C8 at a post with a mixed tags array. -/
theorem c8_witness :
    c8DemoItem.tags = some ["a", "x"] ∧ ¬ ("" ∈ c8DemoItem.tags.getD []) := by
  have h := c8_published_tags c8DemoPost c8DemoItem (by decide)
  refine ⟨?_, fun hmem => h.1 "" hmem rfl⟩
  have h2 := h.2 [JSTag.str "a", JSTag.str "", JSTag.obj (some "x"), JSTag.obj none,
    JSTag.nul] rfl
  rw [h2]
  decide

/-- C10: a post with no readingTime in its metadata is published by the
plugin with readingTime 0, and the plugin-data variant of
`useRecentBlogPosts` replaces a 0 (or missing) readingTime with 5, so such
a post is always presented with readingTime 5. -/
theorem c10_reading_time (post : Post) (item : BlogListItem)
    (hok : pluginMapPost post = Except.ok item)
    (hnone : post.metadata.bind Metadata.readingTime = none) :
    item.readingTime = some 0 ∧
    (HookPluginData.transform item).readingTime = 5 ∧
    (∀ j : BlogListItem, j.readingTime = none →
      (HookPluginData.transform j).readingTime = 5) ∧
    (∀ j : BlogListItem, j.readingTime = some 0 →
      (HookPluginData.transform j).readingTime = 5) := by
  unfold pluginMapPost at hok
  cases htags : pluginTags (post.metadata.bind Metadata.tags) with
  | error e =>
    rw [htags] at hok
    cases hok
  | ok tags =>
    rw [htags] at hok
    simp only [Except.ok.injEq] at hok
    subst hok
    have h0 : mathRound 0 = 0 := by decide
    refine ⟨?_, ?_, ?_, ?_⟩
    · simp [hnone, h0]
    · simp [HookPluginData.transform, hnone, h0]
    · intro j hj
      simp [HookPluginData.transform, hj]
    · intro j hj
      simp [HookPluginData.transform, hj]

/-- Witness for C10 at the post with no metadata at all. -/
theorem c10_witness :
    emptyMetadataItem.readingTime = some 0 ∧
    (HookPluginData.transform emptyMetadataItem).readingTime = 5 := by
  have h := c10_reading_time { metadata := none } emptyMetadataItem (by decide) rfl
  exact ⟨h.1, h.2.1⟩

/-- C4 counterexample: with the blog plugin data absent, the global-data
variant of `useRecentBlogPosts` (in `useBlogPosts.ts`) returns the three
hardcoded fallback posts, not the empty list. -/
theorem c4_counterexample :
    HookGlobalData.useRecentBlogPosts (Except.ok none) 3 = HookGlobalData.getFallbackPosts ∧
    (HookGlobalData.useRecentBlogPosts (Except.ok none) 3).length = 3 ∧
    HookGlobalData.useRecentBlogPosts (Except.ok none) 3 ≠ [] := by
  decide

/-- C4 (amended): on any failure — absent data, empty posts list, or a
thrown exception — the plugin-data variant of `useRecentBlogPosts` returns
the empty list, while the global-data variant returns the three hardcoded
fallback posts of `getFallbackPosts`. -/
theorem c4_amended_failure_behavior :
    (∀ count, HookPluginData.useRecentBlogPosts (Except.error ()) count = [] ∧
      HookPluginData.useRecentBlogPosts (Except.ok none) count = [] ∧
      (∀ pd : RecentPostsPluginData, pd.recentPosts = [] →
        HookPluginData.useRecentBlogPosts (Except.ok (some pd)) count = [])) ∧
    (∀ count, HookGlobalData.useRecentBlogPosts (Except.error ()) count
        = HookGlobalData.getFallbackPosts ∧
      HookGlobalData.useRecentBlogPosts (Except.ok none) count
        = HookGlobalData.getFallbackPosts ∧
      (∀ bpd : HookGlobalData.BlogPluginData, bpd.blogPosts = none →
        HookGlobalData.useRecentBlogPosts (Except.ok (some bpd)) count
          = HookGlobalData.getFallbackPosts) ∧
      (∀ bpd : HookGlobalData.BlogPluginData, bpd.blogPosts = some [] →
        HookGlobalData.useRecentBlogPosts (Except.ok (some bpd)) count
          = HookGlobalData.getFallbackPosts)) ∧
    HookGlobalData.getFallbackPosts.length = 3 := by
  refine ⟨fun count => ⟨rfl, rfl, ?_⟩, fun count => ⟨rfl, rfl, ?_, ?_⟩, rfl⟩
  · intro pd hpd
    simp [HookPluginData.useRecentBlogPosts, hpd]
  · intro bpd hbpd
    simp [HookGlobalData.useRecentBlogPosts, hbpd]
  · intro bpd hbpd
    simp [HookGlobalData.useRecentBlogPosts, hbpd]

/-- Witness for C4 at concrete empty-posts inputs. -/
theorem c4_witness :
    HookPluginData.useRecentBlogPosts (Except.ok (some { recentPosts := [] })) 3 = [] ∧
    HookGlobalData.useRecentBlogPosts (Except.ok (some { blogPosts := some [] })) 3
      = HookGlobalData.getFallbackPosts :=
  ⟨(c4_amended_failure_behavior.1 3).2.2 { recentPosts := [] } rfl,
   (c4_amended_failure_behavior.2.1 3).2.2.2 { blogPosts := some [] } rfl⟩

/-- The date key the plugin writes into a summary item is the date key of
the source post. -/
lemma pluginMapPost_dateKey (p : Post) (item : BlogListItem)
    (h : pluginMapPost p = Except.ok item) : itemDateKey item = postDateKey p := by
  unfold pluginMapPost at h
  cases htags : pluginTags (p.metadata.bind Metadata.tags) with
  | error e =>
    rw [htags] at h
    cases h
  | ok tags =>
    rw [htags] at h
    simp only [Except.ok.injEq] at h
    subst h
    rfl

/-- The global-data hook's transform preserves the sort key of its post. -/
lemma hookTransform_sortKey (p : HookGlobalData.BlogPost) :
    featuredDateKey (HookGlobalData.transform p) = HookGlobalData.sortKey p := by
  obtain ⟨pid, md⟩ := p
  cases md with
  | none => rfl
  | some m =>
    cases hd : m.date with
    | none =>
      simp [featuredDateKey, HookGlobalData.transform, HookGlobalData.sortKey, jsOrStr, hd,
        show dateKey "" = (0 : Int) from rfl]
    | some s =>
      by_cases hs : s = "" <;>
        simp [featuredDateKey, HookGlobalData.transform, HookGlobalData.sortKey, jsOrStr, hd,
          hs, show dateKey "" = (0 : Int) from rfl]

/-- C3 counterexample: on a blog content whose posts appear in ascending
date order, the plugin's single `setGlobalData` call publishes them in that
same ascending order — not ordered by descending publication time. -/
theorem c3_counterexample :
    (allContentLoaded ascendingAllContent).length = 1 ∧
    ¬ List.Sorted (fun a b : BlogListItem => itemDateKey b ≤ itemDateKey a)
      ((allContentLoaded ascendingAllContent).headD { recentPosts := [] }).recentPosts := by
  decide

/-- C3 (amended): the plugin and the plugin-data hook do not sort — they
take the first `min(N, size)` items in input order, so their output is the
`min(N, size)` most recent in descending order exactly when the input is
already sorted by descending publication time; the global-data hook sorts
by descending date itself, so its output is always sorted, and on an
already-sorted input it equals the transformed `count`-prefix. -/
theorem c3_amended_stage_ordering :
    (∀ ps items, (ps.take 5).mapM pluginMapPost = Except.ok items →
      List.Sorted (fun a b : Post => postDateKey b ≤ postDateKey a) ps →
      List.Sorted (fun a b : BlogListItem => itemDateKey b ≤ itemDateKey a) items ∧
      items.length = min 5 ps.length ∧
      ∀ x ∈ items, ∀ y ∈ ps.drop 5, postDateKey y ≤ itemDateKey x) ∧
    (∀ (pd : RecentPostsPluginData) (count : Nat),
      List.Sorted (fun a b : BlogListItem => itemDateKey b ≤ itemDateKey a) pd.recentPosts →
      List.Sorted (fun a b : FeaturedBlogPost => featuredDateKey b ≤ featuredDateKey a)
        (HookPluginData.useRecentBlogPosts (Except.ok (some pd)) count) ∧
      (HookPluginData.useRecentBlogPosts (Except.ok (some pd)) count).length
        = min count pd.recentPosts.length ∧
      ∀ x ∈ HookPluginData.useRecentBlogPosts (Except.ok (some pd)) count,
        ∀ y ∈ pd.recentPosts.drop count, itemDateKey y ≤ featuredDateKey x) ∧
    (∀ (posts : List HookGlobalData.BlogPost) (count : Nat), posts ≠ [] →
      List.Sorted (fun a b : FeaturedBlogPost => featuredDateKey b ≤ featuredDateKey a)
        (HookGlobalData.useRecentBlogPosts
          (Except.ok (some { blogPosts := some posts })) count) ∧
      (HookGlobalData.useRecentBlogPosts
          (Except.ok (some { blogPosts := some posts })) count).length
        = min count posts.length ∧
      (List.Pairwise (fun a b => HookGlobalData.descDate a b = true) posts →
        HookGlobalData.useRecentBlogPosts (Except.ok (some { blogPosts := some posts })) count
          = (posts.take count).map HookGlobalData.transform)) := by
  refine ⟨?_, ?_, ?_⟩
  · intro ps items hok hsorted
    have hkeys : items.map itemDateKey = (ps.take 5).map postDateKey :=
      mapM_ok_map pluginMapPost itemDateKey postDateKey pluginMapPost_dateKey (ps.take 5)
        items hok
    have hsorted5 : List.Pairwise (fun a b : Post => postDateKey b ≤ postDateKey a)
        (ps.take 5) :=
      List.Pairwise.sublist (List.take_sublist 5 ps) hsorted
    refine ⟨?_, ?_, ?_⟩
    · have hpk : List.Pairwise (fun a b : ℤ => b ≤ a) (items.map itemDateKey) := by
        rw [hkeys]
        exact List.pairwise_map.mpr hsorted5
      exact List.pairwise_map.mp hpk
    · have hlen := mapM_ok_length pluginMapPost (ps.take 5) items hok
      simp [hlen]
    · intro x hx y hy
      have hxk : itemDateKey x ∈ (ps.take 5).map postDateKey := by
        rw [← hkeys]
        exact List.mem_map_of_mem itemDateKey hx
      obtain ⟨p, hp, hpk⟩ := List.mem_map.mp hxk
      have h2 := hsorted
      rw [← List.take_append_drop 5 ps] at h2
      have hb := (List.pairwise_append.mp h2).2.2 p hp y hy
      rw [← hpk]
      exact hb
  · intro pd count hsorted
    by_cases hlen : pd.recentPosts.length = 0
    · have hnil : pd.recentPosts = [] := List.length_eq_zero.mp hlen
      refine ⟨?_, ?_, ?_⟩ <;> simp [HookPluginData.useRecentBlogPosts, hnil]
    · have hout : HookPluginData.useRecentBlogPosts (Except.ok (some pd)) count
          = (pd.recentPosts.take count).map HookPluginData.transform := by
        simp [HookPluginData.useRecentBlogPosts, hlen]
      have hsortedT : List.Pairwise (fun a b : BlogListItem => itemDateKey b ≤ itemDateKey a)
          (pd.recentPosts.take count) :=
        List.Pairwise.sublist (List.take_sublist count pd.recentPosts) hsorted
      refine ⟨?_, ?_, ?_⟩
      · rw [hout]
        exact List.pairwise_map.mpr hsortedT
      · rw [hout]
        simp
      · intro x hx y hy
        rw [hout] at hx
        obtain ⟨i, hi, rfl⟩ := List.mem_map.mp hx
        have h2 := hsorted
        rw [← List.take_append_drop count pd.recentPosts] at h2
        exact (List.pairwise_append.mp h2).2.2 i hi y hy
  · intro posts count hne
    have hlen : ¬ posts.length = 0 := by
      simpa [List.length_eq_zero] using hne
    have hout : HookGlobalData.useRecentBlogPosts
          (Except.ok (some { blogPosts := some posts })) count
        = ((posts.mergeSort HookGlobalData.descDate).take count).map
            HookGlobalData.transform := by
      simp [HookGlobalData.useRecentBlogPosts, hlen]
    have htrans : ∀ a b c, HookGlobalData.descDate a b = true →
        HookGlobalData.descDate b c = true → HookGlobalData.descDate a c = true := by
      intro a b c h1 h2
      simp only [HookGlobalData.descDate, decide_eq_true_eq] at h1 h2 ⊢
      omega
    have htotal : ∀ a b,
        (HookGlobalData.descDate a b || HookGlobalData.descDate b a) = true := by
      intro a b
      simp only [HookGlobalData.descDate, Bool.or_eq_true, decide_eq_true_eq]
      omega
    have hms : List.Pairwise (fun a b => HookGlobalData.descDate a b = true)
        (posts.mergeSort HookGlobalData.descDate) :=
      List.sorted_mergeSort htrans htotal posts
    have hmsT : List.Pairwise (fun a b => HookGlobalData.descDate a b = true)
        ((posts.mergeSort HookGlobalData.descDate).take count) :=
      List.Pairwise.sublist (List.take_sublist count _) hms
    refine ⟨?_, ?_, ?_⟩
    · rw [hout]
      refine List.pairwise_map.mpr (hmsT.imp ?_)
      intro a b h
      rw [hookTransform_sortKey, hookTransform_sortKey]
      simpa [HookGlobalData.descDate] using h
    · rw [hout]
      simp
    · intro hsorted
      rw [hout, List.mergeSort_of_sorted hsorted]

/-- Witness for C3 at concrete two-post inputs sorted by descending date. -/
theorem c3_witness :
    List.Sorted (fun a b : BlogListItem => itemDateKey b ≤ itemDateKey a)
      [item2024, item2020] ∧
    (HookPluginData.useRecentBlogPosts
      (Except.ok (some { recentPosts := [item2024, item2020] })) 1).length = min 1 2 ∧
    HookGlobalData.useRecentBlogPosts
        (Except.ok (some { blogPosts := some [hookPost2024, hookPost2020] })) 3
      = ([hookPost2024, hookPost2020].take 3).map HookGlobalData.transform := by
  have hP := c3_amended_stage_ordering.1 [post2024, post2020] [item2024, item2020]
    (by decide) (by decide)
  have hQ := c3_amended_stage_ordering.2.1 { recentPosts := [item2024, item2020] } 1
    (by decide)
  have hR := c3_amended_stage_ordering.2.2 [hookPost2024, hookPost2020] 3 (by decide)
  exact ⟨hP.1, hQ.2.1, hR.2.2 (by decide)⟩
